import Mathlib

/-!
Verification development for the SweetAware prediction controller
(src/SweetAware_API/src/controllers/predictionController.js).

The controller is embedded shallowly: JavaScript payload values become
`JsVal`, the Joi validation schema becomes a function computing the first
violated rule, and each handler becomes a pure function over explicit
parameters for everything it reads from its environment: the persisted
store and its availability (`mongoose.connection.readyState === 1`), the
authenticated user id, the current time (`Date.now()`), and the outcomes
of `Math.random()` and of the external `DiabetesPredictionService`.
-/

namespace SweetAware

/-- A JavaScript value as it can appear in a prediction request payload. -/
inductive JsVal where
  | str (s : String)
  | num (q : ℚ)
  | bool (b : Bool)
deriving DecidableEq, Repr

/-- The raw request payload: each recognized field is either absent
(`none`, JavaScript `undefined`) or carries a `JsVal`. -/
structure Payload where
  gender : Option JsVal
  age : Option JsVal
  hypertension : Option JsVal
  heartDisease : Option JsVal
  smokingHistory : Option JsVal
  bmi : Option JsVal
  hbA1cLevel : Option JsVal
  bloodGlucoseLevel : Option JsVal
deriving DecidableEq, Repr

/-- Joi quotes the field name at the start of each of its messages. -/
def quoted (name : String) : String := "\"" ++ name ++ "\""

/-- Joi's message for a missing required field. -/
def requiredMsg (name : String) : String := quoted name ++ " is required"

/-- Joi check for `Joi.string().valid(...allowed).required()`. -/
def checkRequiredEnum (name : String) (allowed : List String) (v : Option JsVal) : Option String :=
  match v with
  | none => some (requiredMsg name)
  | some (.str s) =>
      if s ∈ allowed then none
      else some (quoted name ++ " must be one of [" ++ String.intercalate ", " allowed ++ "]")
  | some _ => some (quoted name ++ " must be one of [" ++ String.intercalate ", " allowed ++ "]")

/-- Joi check for `Joi.number().required()`. -/
def checkRequiredNumber (name : String) (v : Option JsVal) : Option String :=
  match v with
  | none => some (requiredMsg name)
  | some (.num _) => none
  | some _ => some (quoted name ++ " must be a number")

/-- Joi check for `Joi.boolean().required()`. -/
def checkRequiredBool (name : String) (v : Option JsVal) : Option String :=
  match v with
  | none => some (requiredMsg name)
  | some (.bool _) => none
  | some _ => some (quoted name ++ " must be a boolean")

/-- Joi check for `Joi.number().optional()`. -/
def checkOptionalNumber (name : String) (v : Option JsVal) : Option String :=
  match v with
  | none => none
  | some (.num _) => none
  | some _ => some (quoted name ++ " must be a number")

/-- Joi check for `Joi.boolean().optional()`. -/
def checkOptionalBool (name : String) (v : Option JsVal) : Option String :=
  match v with
  | none => none
  | some (.bool _) => none
  | some _ => some (quoted name ++ " must be a boolean")

/-- The first violated rule of the `predictionValidation` Joi schema
(Joi default `abortEarly: true`), checked in schema declaration order,
returned as (field name, message). -/
def firstJoiError (p : Payload) : Option (String × String) :=
  match checkRequiredEnum "gender" ["Male", "Female"] p.gender with
  | some m => some ("gender", m)
  | none =>
  match checkRequiredNumber "age" p.age with
  | some m => some ("age", m)
  | none =>
  match checkOptionalBool "hypertension" p.hypertension with
  | some m => some ("hypertension", m)
  | none =>
  match checkRequiredBool "heartDisease" p.heartDisease with
  | some m => some ("heartDisease", m)
  | none =>
  match checkRequiredEnum "smokingHistory" ["never", "former", "current"] p.smokingHistory with
  | some m => some ("smokingHistory", m)
  | none =>
  match checkRequiredNumber "bmi" p.bmi with
  | some m => some ("bmi", m)
  | none =>
  match checkOptionalNumber "hbA1cLevel" p.hbA1cLevel with
  | some m => some ("hbA1cLevel", m)
  | none =>
  match checkOptionalNumber "bloodGlucoseLevel" p.bloodGlucoseLevel with
  | some m => some ("bloodGlucoseLevel", m)
  | none => none

/-- Joi `validate` output: `error` is the first violated rule's message,
`value` is the normalized payload with the schema default applied
(`hypertension` defaults to `false` when absent). -/
structure ValidationOutcome where
  error : Option String
  value : Payload
deriving Repr

/-- The `predictionValidation.validate` call of the controller. -/
def predictionValidation (p : Payload) : ValidationOutcome :=
  { error := (firstJoiError p).map Prod.snd,
    value := { p with hypertension := some (p.hypertension.getD (.bool false)) } }

/-- JavaScript `String.prototype.includes`. -/
def jsIncludes (s sub : String) : Bool := decide (sub.toList <:+: s.toList)

/-- The guidance appended by the controller when a validation error
concerns one of the optional fields. -/
def optionalHint : String :=
  ". Anda dapat melanjutkan tanpa mengisi nilai ini, sistem akan memberikan estimasi berdasarkan data lain yang Anda berikan."

/-- The controller's user-friendly rewrite of a validation message. -/
def augmentMessage (m : String) : String :=
  if jsIncludes m "hbA1cLevel" || jsIncludes m "bloodGlucoseLevel" || jsIncludes m "hypertension" then
    m ++ optionalHint
  else m

/-- Recommendation triple attached to a prediction result. -/
structure Recommendations where
  lifestyle : List String
  monitoring : List String
  consultation : List String
deriving DecidableEq, Repr

/-- A prediction result: classification, risk score, qualitative factors
(`details.factors`, kept as an association list in source order) and the
attached recommendations. -/
structure PredictionResult where
  prediction : String
  riskScore : ℚ
  factors : List (String × String)
  recommendations : Option Recommendations
deriving DecidableEq, Repr

/-- Truthiness of an optional JS value; `undefined` is falsy. -/
def jsTruthy : Option JsVal → Bool
  | none => false
  | some (.str s) => !(s == "")
  | some (.num q) => decide (q ≠ 0)
  | some (.bool b) => b

/-- The JavaScript comparison `v > c` for the value shapes these fields
can have after validation: a number compares numerically; an absent value
(`undefined`) makes the comparison false (`NaN` semantics). -/
def jsGtNum (v : Option JsVal) (c : ℚ) : Bool :=
  match v with
  | some (.num q) => decide (c < q)
  | _ => false

/-- The static recommendation triple of the fallback branch. -/
def staticRecommendations : Recommendations :=
  { lifestyle := ["Maintain a balanced diet rich in vegetables and fruits",
                  "Regular physical activity (at least 150 minutes per week)"],
    monitoring := ["Regular blood glucose monitoring"],
    consultation := ["Follow up with your primary care physician"] }

/-- The fallback prediction synthesized in the catch branch of
`createPrediction` when the ML service throws. `coin` is the outcome of
`Math.random() > 0.5` and `r` the `Math.random()` draw used for
`riskScore`. -/
def fallbackPrediction (inputData : Payload) (coin : Bool) (r : ℚ) : PredictionResult :=
  { prediction := if coin then "High Risk" else "Low Risk",
    riskScore := r,
    factors :=
      [("bloodGlucoseLevel", if jsGtNum inputData.bloodGlucoseLevel 140 then "High" else "Normal"),
       ("hbA1cLevel", if jsGtNum inputData.hbA1cLevel (6.5 : ℚ) then "Elevated" else "Normal"),
       ("bmi", if jsGtNum inputData.bmi 25 then "Overweight" else "Normal"),
       ("hypertension", if jsTruthy inputData.hypertension then "Present" else "Absent"),
       ("heartDisease", if jsTruthy inputData.heartDisease then "Present" else "Absent")],
    recommendations := some staticRecommendations }

/-- Input data carried by a prediction record: a validated request payload
for real records, the synthetic vitals object for mock records. -/
structure MockVitals where
  glucose : ℚ
  bloodPressure : ℚ
  skinThickness : ℚ
  insulin : ℚ
  bmi : ℚ
  age : ℚ
deriving DecidableEq, Repr

/-- The two input shapes a record can carry. -/
inductive RecInput where
  | payload (p : Payload)
  | vitals (v : MockVitals)
deriving DecidableEq, Repr

/-- A prediction record (persisted document or mock representation). -/
structure PredRecord where
  _id : String
  user : String
  inputData : RecInput
  result : PredictionResult
  createdAt : Int
deriving DecidableEq, Repr

/-- The `data` object of a successful create response. -/
structure CreateData where
  id : String
  inputData : Payload
  result : PredictionResult
  createdAt : Int
deriving DecidableEq, Repr

/-- Response envelope of `createPrediction`. -/
structure CreateResp where
  status : String
  message : Option String
  data : Option CreateData
  code : Nat
deriving DecidableEq, Repr

/-- Result of running `createPrediction`: the response and the store
contents afterwards. -/
structure CreateResult where
  resp : CreateResp
  store : List PredRecord
deriving Repr

/-- Shallow embedding of `createPrediction`. `ml` is the outcome of the
`DiabetesPredictionService` try-block, carrying the prediction and the
recommendations it computes (`none` when the service throws); `coin` and
`r` are the two `Math.random()` draws of the fallback branch; `connected`
is `mongoose.connection.readyState === 1`; `freshId` is the store-assigned
`_id` for a newly saved record; `now` is `Date.now()`. -/
def createPrediction (payload : Payload) (ml : Option (PredictionResult × Recommendations))
    (coin : Bool) (r : ℚ) (connected : Bool) (store : List PredRecord)
    (freshId userId : String) (now : Int) : CreateResult :=
  match (predictionValidation payload).error with
  | some errorMessage =>
      { resp := { status := "error", message := some (augmentMessage errorMessage),
                  data := none, code := 400 },
        store := store }
  | none =>
      let inputData := payload
      let predictionResult :=
        match ml with
        | some (pr, recs) => { pr with recommendations := some recs }
        | none => fallbackPrediction inputData coin r
      if !connected then
        { resp := { status := "success",
                    message := some "Prediction created successfully (MOCK - No DB)",
                    data := some { id := "mock-" ++ toString now, inputData := inputData,
                                   result := predictionResult, createdAt := now },
                    code := 201 },
          store := store }
      else
        { resp := { status := "success", message := some "Prediction created successfully",
                    data := some { id := freshId, inputData := inputData,
                                   result := predictionResult, createdAt := now },
                    code := 201 },
          store := store ++ [{ _id := freshId, user := userId, inputData := .payload inputData,
                               result := predictionResult, createdAt := now }] }

/-- The raw draws behind one synthesized mock history record: the six
`Math.random()` vitals draws, the classification coin and the risk draw. -/
structure MockRand where
  g : ℚ
  bp : ℚ
  st : ℚ
  ins : ℚ
  bmiR : ℚ
  ageR : ℚ
  coin : Bool
  risk : ℚ
deriving Repr

/-- The i-th synthesized record of the mock history branch. -/
def mockHistoryRecord (userId : String) (now : Int) (gen : Nat → MockRand) (i : Nat) : PredRecord :=
  let rnd := gen i
  { _id := "mock-" ++ toString i ++ "-" ++ toString now,
    user := userId,
    inputData := .vitals
      { glucose := 110 + (⌊rnd.g * 70⌋ : ℚ),
        bloodPressure := 70 + (⌊rnd.bp * 40⌋ : ℚ),
        skinThickness := 20 + (⌊rnd.st * 15⌋ : ℚ),
        insulin := 50 + (⌊rnd.ins * 100⌋ : ℚ),
        bmi := 22 + rnd.bmiR * 10,
        age := 25 + (⌊rnd.ageR * 40⌋ : ℚ) },
    result := { prediction := if rnd.coin then "High Risk" else "Low Risk",
                riskScore := rnd.risk, factors := [], recommendations := none },
    createdAt := now - (i : Int) * 86400000 }

/-- Pagination metadata of a history response. -/
structure Pagination where
  total : Nat
  page : Int
  limit : Int
  pages : Int
deriving DecidableEq, Repr

/-- The `data` object of a history response. -/
structure HistoryData where
  predictions : List PredRecord
  pagination : Pagination
deriving DecidableEq, Repr

/-- Response envelope of `getPredictionHistory`. -/
structure HistoryResp where
  status : String
  message : Option String
  data : Option HistoryData
  code : Nat
deriving DecidableEq, Repr

/-- Digit run to its numeric value. -/
def digitsVal (l : List Char) : Nat :=
  l.foldl (fun acc c => acc * 10 + (c.toNat - 48)) 0

/-- JavaScript `parseInt` on a character list: optional sign, then leading
decimal digits; `none` models `NaN` (no leading digits). -/
def parseIntChars (l : List Char) : Option Int :=
  let signed : Int × List Char :=
    match l with
    | '-' :: t => (-1, t)
    | '+' :: t => (1, t)
    | t => (1, t)
  let digits := signed.2.takeWhile Char.isDigit
  if digits.isEmpty then none
  else some (signed.1 * (digitsVal digits : Int))

/-- JavaScript `parseInt` applied to an optional query parameter; leading
whitespace is skipped, an absent parameter gives `NaN` (`none`). -/
def jsParseInt (q : Option String) : Option Int :=
  match q with
  | none => none
  | some s => parseIntChars (s.toList.dropWhile (fun c => c = ' '))

/-- JavaScript `x || d` on a parsed page/limit value: `NaN` (`none`) and
`0` are falsy and give the default. -/
def jsOr (v : Option Int) (d : Int) : Int :=
  match v with
  | none => d
  | some n => if n = 0 then d else n

/-- `Math.ceil(a / b)`: the ceiling of the exact rational quotient. The
handler only reaches this with a nonzero `b`; at `b = 0` JavaScript gives
`Infinity`, which has no integer counterpart, and this model gives `0`. -/
def mathCeilDiv (a b : Int) : Int := Int.ceil ((a : ℚ) / (b : ℚ))

/-- The records owned by the requesting user (`Prediction.find`,
`Prediction.countDocuments` filter `{user: userId}`). -/
def ownerRecords (store : List PredRecord) (userId : String) : List PredRecord :=
  store.filter (fun rec => rec.user == userId)

/-- The store's `sort({createdAt: -1})` comparison. -/
def byCreatedAtDesc (a b : PredRecord) : Bool := decide (b.createdAt ≤ a.createdAt)

/-- The owner's records sorted by `createdAt` descending (the query's
`sort({createdAt: -1})`, as a stable sort of the store contents). -/
def sortedOwnerRecords (store : List PredRecord) (userId : String) : List PredRecord :=
  (ownerRecords store userId).mergeSort byCreatedAtDesc

/-- Shallow embedding of `getPredictionHistory`. `pageQ` and `limitQ` are
the raw query parameters; `gen` supplies the `Math.random()` draws of the
mock branch. The query's `.skip(skip).limit(limit)` is modelled by
`drop`/`take` on the sorted owner records, for the nonnegative skip and
limit values a well-formed request produces. -/
def getPredictionHistory (store : List PredRecord) (connected : Bool) (userId : String)
    (pageQ limitQ : Option String) (now : Int) (gen : Nat → MockRand) : HistoryResp :=
  let page := jsOr (jsParseInt pageQ) 1
  let limit := jsOr (jsParseInt limitQ) 10
  let skip := (page - 1) * limit
  if !connected then
    let mockPredictions := (List.range 5).map (mockHistoryRecord userId now gen)
    { status := "success", message := none,
      data := some { predictions := mockPredictions,
                     pagination := { total := mockPredictions.length, page := 1,
                                     limit := 10, pages := 1 } },
      code := 200 }
  else
    let predictions := ((sortedOwnerRecords store userId).drop skip.toNat).take limit.toNat
    let total := (ownerRecords store userId).length
    { status := "success", message := none,
      data := some { predictions := predictions,
                     pagination := { total := total, page := page, limit := limit,
                                     pages := mathCeilDiv (total : Int) limit } },
      code := 200 }

/-- The `data` object of a get-by-id response. -/
structure GetData where
  prediction : PredRecord
deriving DecidableEq, Repr

/-- Response envelope of `getPredictionById`. -/
structure GetResp where
  status : String
  message : Option String
  data : Option GetData
  code : Nat
deriving DecidableEq, Repr

/-- The hardcoded id accepted by the mock branches besides `mock-`-prefixed
ones. -/
def sentinelId : String := "60d21b4667d0d8992e610c85"

/-- JavaScript `String.prototype.startsWith`. -/
def jsStartsWith (s pre : String) : Bool := decide (pre.toList <+: s.toList)

/-- The mock branches' id acceptance test: the negation of
`!predictionId.startsWith("mock-") && predictionId !== sentinelId`. -/
def mockIdAccepted (predictionId : String) : Bool :=
  jsStartsWith predictionId "mock-" || predictionId == sentinelId

/-- The canned record of the mock branch of `getPredictionById`; its `_id`
echoes the requested id, `user` and `createdAt` come from the request
context. -/
def cannedMockPrediction (predictionId userId : String) (now : Int) : PredRecord :=
  { _id := predictionId, user := userId,
    inputData := .vitals { glucose := 140, bloodPressure := 80, skinThickness := 25,
                           insulin := 120, bmi := (24.5 : ℚ), age := 45 },
    result := { prediction := "High Risk", riskScore := (0.75 : ℚ),
                factors := [("glucose", "High"), ("bloodPressure", "Normal"),
                            ("bmi", "Normal")],
                recommendations := none },
    createdAt := now }

/-- Shallow embedding of `getPredictionById`. The real branch's
`Prediction.findOne({_id, user})` is the first store record matching both
the id and the owner. -/
def getPredictionById (store : List PredRecord) (connected : Bool)
    (predictionId userId : String) (now : Int) : GetResp :=
  if !connected then
    if !(mockIdAccepted predictionId) then
      { status := "error", message := some "Prediction not found", data := none, code := 404 }
    else
      { status := "success", message := none,
        data := some { prediction := cannedMockPrediction predictionId userId now },
        code := 200 }
  else
    match store.find? (fun rec => rec._id == predictionId && rec.user == userId) with
    | none =>
        { status := "error", message := some "Prediction not found", data := none, code := 404 }
    | some prediction =>
        { status := "success", message := none, data := some { prediction := prediction },
          code := 200 }

/-- Response envelope of `deletePrediction`. -/
structure DeleteResp where
  status : String
  message : Option String
  code : Nat
deriving DecidableEq, Repr

/-- Result of running `deletePrediction`: the response and the store
contents afterwards. -/
structure DeleteResult where
  resp : DeleteResp
  store : List PredRecord
deriving Repr

/-- The 404 message of the real delete branch. -/
def deleteNotFoundMsg : String :=
  "Prediction not found or you don" ++ (Char.ofNat 39).toString ++
    "t have permission to delete it"

/-- Shallow embedding of `deletePrediction`. The real branch's
`Prediction.findOneAndDelete({_id, user})` finds the first matching record
and removes it. -/
def deletePrediction (store : List PredRecord) (connected : Bool)
    (predictionId userId : String) : DeleteResult :=
  if !connected then
    if !(mockIdAccepted predictionId) then
      { resp := { status := "error", message := some "Prediction not found", code := 404 },
        store := store }
    else
      { resp := { status := "success",
                  message := some "Prediction deleted successfully (MOCK - No DB)",
                  code := 200 },
        store := store }
  else
    match store.find? (fun rec => rec._id == predictionId && rec.user == userId) with
    | none =>
        { resp := { status := "error", message := some deleteNotFoundMsg, code := 404 },
          store := store }
    | some _ =>
        { resp := { status := "success", message := some "Prediction deleted successfully",
                    code := 200 },
          store := store.eraseP (fun rec => rec._id == predictionId && rec.user == userId) }

/-! ### Concrete sample data for witnesses -/

/-- A valid request payload. -/
def samplePayload : Payload :=
  { gender := some (.str "Male"), age := some (.num 30), hypertension := some (.bool false),
    heartDisease := some (.bool false), smokingHistory := some (.str "never"),
    bmi := some (.num 22), hbA1cLevel := some (.num 6), bloodGlucoseLevel := some (.num 120) }

/-- Fixed draws for concrete mock-branch evaluations. -/
def zeroRand : MockRand :=
  { g := 0, bp := 0, st := 0, ins := 0, bmiR := 0, ageR := 0, coin := false, risk := 0 }

/-- A concrete stored record owned by user `A`. -/
def sampleRecord : PredRecord :=
  { _id := "abc123", user := "A", inputData := .payload samplePayload,
    result := { prediction := "Low Risk", riskScore := 0, factors := [],
                recommendations := none },
    createdAt := 10 }

/-- The sample payload with the optional hypertension field omitted. -/
def payloadNoHyp : Payload := { samplePayload with hypertension := none }

/-! ### Lemmas about `jsIncludes` -/

lemma jsIncludes_iff (s sub : String) : jsIncludes s sub = true ↔ sub.toList <:+: s.toList := by
  simp [jsIncludes]

lemma toList_append (s t : String) : (s ++ t).toList = s.toList ++ t.toList := rfl

lemma jsIncludes_append_left (a b : String) : jsIncludes (a ++ b) a = true := by
  rw [jsIncludes_iff, toList_append]
  exact (List.prefix_append _ _).isInfix

lemma jsIncludes_append_right (a b : String) : jsIncludes (a ++ b) b = true := by
  rw [jsIncludes_iff, toList_append]
  exact (List.suffix_append _ _).isInfix

lemma jsIncludes_extend (a b sub : String) (h : jsIncludes a sub = true) :
    jsIncludes (a ++ b) sub = true := by
  rw [jsIncludes_iff, toList_append]
  obtain ⟨s, t, hst⟩ := (jsIncludes_iff a sub).mp h
  exact ⟨s, t ++ b.toList, by rw [← hst]; simp⟩

lemma jsIncludes_quoted_self (name rest : String) :
    jsIncludes (quoted name ++ rest) (quoted name) = true :=
  jsIncludes_append_left _ _

lemma jsIncludes_quoted_name (name rest : String) :
    jsIncludes (quoted name ++ rest) name = true := by
  rw [jsIncludes_iff]
  refine ⟨"\"".toList, "\"".toList ++ rest.toList, ?_⟩
  simp [quoted, toList_append]

/-! ### Claim theorems -/

/-- C1: for every valid input, when the inference collaborator throws
(`ml = none`), the Create handler still responds 201 with a success
status; the fallback result's prediction is one of the two risk labels,
its riskScore lies in [0,1], its factors follow the threshold rules on
the raw input, the static recommendation triple is attached, and the
inference failure is never surfaced to the caller as an error. -/
theorem inference_failure_recovered (p : Payload)
    (hval : (predictionValidation p).error = none)
    (coin : Bool) (r : ℚ) (hr0 : 0 ≤ r) (hr1 : r < 1)
    (connected : Bool) (store : List PredRecord) (freshId userId : String) (now : Int) :
    (createPrediction p none coin r connected store freshId userId now).resp.code = 201 ∧
    (createPrediction p none coin r connected store freshId userId now).resp.status = "success" ∧
    ∃ d, (createPrediction p none coin r connected store freshId userId now).resp.data = some d ∧
      (d.result.prediction = "High Risk" ∨ d.result.prediction = "Low Risk") ∧
      0 ≤ d.result.riskScore ∧ d.result.riskScore ≤ 1 ∧
      d.result.factors =
        [("bloodGlucoseLevel", if jsGtNum p.bloodGlucoseLevel 140 then "High" else "Normal"),
         ("hbA1cLevel", if jsGtNum p.hbA1cLevel (6.5 : ℚ) then "Elevated" else "Normal"),
         ("bmi", if jsGtNum p.bmi 25 then "Overweight" else "Normal"),
         ("hypertension", if jsTruthy p.hypertension then "Present" else "Absent"),
         ("heartDisease", if jsTruthy p.heartDisease then "Present" else "Absent")] ∧
      d.result.recommendations = some staticRecommendations := by
  cases connected <;>
    simp only [createPrediction, hval, Bool.not_true, Bool.not_false, if_true, if_false,
      Bool.false_eq_true, ite_false, ite_true] <;>
    exact ⟨trivial, trivial, _, rfl,
      (by cases coin <;> simp [fallbackPrediction]),
      hr0, le_of_lt hr1, rfl, rfl⟩

/-- C1 witness at a concrete valid payload and concrete draws. -/
theorem inference_failure_recovered_witness :
    (createPrediction samplePayload none true (1 / 2) false [] "fresh" "user" 0).resp.code = 201 :=
  (inference_failure_recovered samplePayload rfl true (1 / 2) (by norm_num) (by norm_num)
    false [] "fresh" "user" 0).1

/-- C9: with the store unavailable, on valid input the Create handler
responds 201; the envelope carries the synthesized id "mock-" followed by
the current timestamp, the original raw input data, the computed
prediction result and the current timestamp as createdAt; the store is
left untouched. -/
theorem create_mock_envelope (p : Payload)
    (hval : (predictionValidation p).error = none)
    (ml : Option (PredictionResult × Recommendations)) (coin : Bool) (r : ℚ)
    (store : List PredRecord) (freshId userId : String) (now : Int) :
    (createPrediction p ml coin r false store freshId userId now).resp.code = 201 ∧
    (createPrediction p ml coin r false store freshId userId now).resp.status = "success" ∧
    (createPrediction p ml coin r false store freshId userId now).resp.data =
      some { id := "mock-" ++ toString now, inputData := p,
             result := match ml with
                       | some (pr, recs) => { pr with recommendations := some recs }
                       | none => fallbackPrediction p coin r,
             createdAt := now } ∧
    (createPrediction p ml coin r false store freshId userId now).store = store := by
  rcases ml with _ | ⟨pr, recs⟩ <;> simp [createPrediction, hval]

/-- C9 witness at a concrete valid payload. -/
theorem create_mock_envelope_witness :
    (createPrediction samplePayload none false 0 false [] "fresh" "user" 99).store = [] :=
  (create_mock_envelope samplePayload rfl none false 0 [] "fresh" "user" 99).2.2.2

/-- C4: with the store unavailable, the List handler responds 200 with
exactly 5 synthesized records whose createdAt timestamps descend one day
(86400000 ms) at a time from now, wrapped in pagination metadata
total 5, page 1, limit 10, pages 1, whatever page and limit were
requested. -/
theorem history_mock_branch (store : List PredRecord) (userId : String)
    (pageQ limitQ : Option String) (now : Int) (gen : Nat → MockRand) :
    (getPredictionHistory store false userId pageQ limitQ now gen).code = 200 ∧
    (getPredictionHistory store false userId pageQ limitQ now gen).status = "success" ∧
    ∃ d, (getPredictionHistory store false userId pageQ limitQ now gen).data = some d ∧
      d.predictions.length = 5 ∧
      d.predictions.map (fun rec => rec.createdAt) =
        [now, now - 86400000, now - 2 * 86400000, now - 3 * 86400000, now - 4 * 86400000] ∧
      d.pagination = { total := 5, page := 1, limit := 10, pages := 1 } := by
  refine ⟨rfl, rfl, _, rfl, rfl, ?_, rfl⟩
  show [now - 0 * 86400000, now - 1 * 86400000, now - 2 * 86400000,
        now - 3 * 86400000, now - 4 * 86400000] = _
  norm_num

/-- C2 counterexample: with the store unavailable the List response (and
likewise the GetByOne mock response) carries no message at all, so not
every mock-mode response carries a "(MOCK - No DB)"-annotated message. -/
theorem mock_history_and_get_have_no_message :
    (getPredictionHistory [] false "user" none none 0 (fun _ => zeroRand)).message = none ∧
    (getPredictionById [] false "mock-1" "user" 0).message = none :=
  ⟨rfl, rfl⟩

/-- C2 amended: among mock-mode responses, exactly the Create success and
Delete success messages carry the "(MOCK - No DB)" marker; the List and
GetByOne mock responses carry no message at all, and the mock 404
responses carry the plain "Prediction not found" without the marker. -/
theorem mock_marker_only_on_create_and_delete (p : Payload)
    (hval : (predictionValidation p).error = none)
    (ml : Option (PredictionResult × Recommendations)) (coin : Bool) (r : ℚ)
    (store : List PredRecord) (freshId userId predictionId : String) (now : Int)
    (pageQ limitQ : Option String) (gen : Nat → MockRand) :
    (∃ m, (createPrediction p ml coin r false store freshId userId now).resp.message = some m ∧
       jsIncludes m "(MOCK - No DB)" = true) ∧
    (getPredictionHistory store false userId pageQ limitQ now gen).message = none ∧
    (mockIdAccepted predictionId = true →
      (getPredictionById store false predictionId userId now).message = none ∧
      (deletePrediction store false predictionId userId).resp.message =
        some "Prediction deleted successfully (MOCK - No DB)") ∧
    (mockIdAccepted predictionId = false →
      (getPredictionById store false predictionId userId now).message =
        some "Prediction not found" ∧
      (deletePrediction store false predictionId userId).resp.message =
        some "Prediction not found") ∧
    jsIncludes "Prediction deleted successfully (MOCK - No DB)" "(MOCK - No DB)" = true ∧
    jsIncludes "Prediction not found" "(MOCK - No DB)" = false := by
  refine ⟨⟨"Prediction created successfully (MOCK - No DB)", ?_, by decide⟩, rfl, ?_, ?_,
    by decide, by decide⟩
  · rcases ml with _ | ⟨pr, recs⟩ <;> simp [createPrediction, hval]
  · intro h
    exact ⟨by simp [getPredictionById, h], by simp [deletePrediction, h]⟩
  · intro h
    exact ⟨by simp [getPredictionById, h], by simp [deletePrediction, h]⟩

/-- C2 amended witness at concrete inputs (an accepted mock id). -/
theorem mock_marker_only_on_create_and_delete_witness :
    (getPredictionHistory [] false "user" none none 7 (fun _ => zeroRand)).message = none :=
  (mock_marker_only_on_create_and_delete samplePayload rfl none false 0 [] "fresh" "user"
    "mock-1" 7 none none (fun _ => zeroRand)).2.1

/-- C3 counterexample: for a valid payload omitting hypertension, the
validator's normalized value carries the default false, but the Create
response's inputData is the raw payload and still lacks hypertension:
the normalized input is not what flows onward. -/
theorem raw_payload_flows_onward :
    (predictionValidation payloadNoHyp).value.hypertension = some (.bool false) ∧
    ((createPrediction payloadNoHyp none true (1 / 2) false [] "fresh" "user" 0).resp.data.map
      (fun d => d.inputData.hypertension)) = some none :=
  ⟨rfl, rfl⟩

/-- C3 amended: the validator does compute a normalized value with the
hypertension default applied, but the handler destructures only the error
and forwards the raw payload: when hypertension is omitted, the computed
result and the returned inputData are built from the raw payload in which
hypertension stays absent, the fallback factor rule reading the absent
value as falsy ("Absent"). -/
theorem validator_default_discarded (p : Payload)
    (hval : (predictionValidation p).error = none) (hhy : p.hypertension = none)
    (ml : Option (PredictionResult × Recommendations)) (coin : Bool) (r : ℚ)
    (connected : Bool) (store : List PredRecord) (freshId userId : String) (now : Int) :
    (predictionValidation p).value.hypertension = some (.bool false) ∧
    ∀ d, (createPrediction p ml coin r connected store freshId userId now).resp.data = some d →
      d.inputData = p ∧ d.inputData.hypertension = none ∧
      (ml = none → d.result.factors.lookup "hypertension" = some "Absent") := by
  refine ⟨by simp [predictionValidation, hhy], ?_⟩
  intro d hd
  cases connected <;> simp only [createPrediction, hval, Bool.not_true, Bool.not_false,
    if_true, if_false, Bool.false_eq_true, ite_false, ite_true, Option.some.injEq] at hd <;>
  · subst hd
    refine ⟨rfl, hhy, ?_⟩
    intro hml
    subst hml
    simp [fallbackPrediction, jsTruthy, hhy, List.lookup]

/-- C3 amended witness at the concrete payload missing hypertension. -/
theorem validator_default_discarded_witness :
    (predictionValidation payloadNoHyp).value.hypertension = some (.bool false) :=
  (validator_default_discarded payloadNoHyp rfl rfl none true 0 false [] "fresh" "user" 0).1

/-- C5 counterexample: two accepted ids yield different mock GetByOne
payloads, because the canned record echoes the requested id in its own
id field; GetByOne does not return the same record for every accepted
id. -/
theorem mock_get_record_depends_on_id :
    (getPredictionById [] false "mock-a" "user" 0).data ≠
    (getPredictionById [] false "mock-b" "user" 0).data := by decide

/-- C5 amended: with the store unavailable, GetByOne and Delete answer 200
exactly when the id starts with "mock-" or equals the sentinel id, and
404 with "Prediction not found" otherwise; on acceptance GetByOne returns
the canned record, identical for every accepted id except that its id
field echoes the requested id (user and createdAt coming from the request
context), and Delete acknowledges success without changing any state. -/
theorem mock_id_acceptance (store : List PredRecord) (predictionId userId : String) (now : Int) :
    ((getPredictionById store false predictionId userId now).code = 200 ↔
      (jsStartsWith predictionId "mock-" = true ∨ predictionId = sentinelId)) ∧
    ((getPredictionById store false predictionId userId now).code = 200 ∨
      ((getPredictionById store false predictionId userId now).code = 404 ∧
       (getPredictionById store false predictionId userId now).message =
         some "Prediction not found")) ∧
    (mockIdAccepted predictionId = true →
      (getPredictionById store false predictionId userId now).data =
        some { prediction := cannedMockPrediction predictionId userId now }) ∧
    ((deletePrediction store false predictionId userId).resp.code = 200 ↔
      (jsStartsWith predictionId "mock-" = true ∨ predictionId = sentinelId)) ∧
    ((deletePrediction store false predictionId userId).resp.code = 404 →
      (deletePrediction store false predictionId userId).resp.message =
        some "Prediction not found") ∧
    (deletePrediction store false predictionId userId).store = store := by
  by_cases h : mockIdAccepted predictionId = true
  · have hdisj : jsStartsWith predictionId "mock-" = true ∨ predictionId = sentinelId := by
      simpa [mockIdAccepted, Bool.or_eq_true, beq_iff_eq] using h
    simp [getPredictionById, deletePrediction, h, hdisj]
  · have hdisj : ¬(jsStartsWith predictionId "mock-" = true ∨ predictionId = sentinelId) := by
      simpa [mockIdAccepted, Bool.or_eq_true, beq_iff_eq] using h
    simp [getPredictionById, deletePrediction, h, hdisj]

/-- C5 amended witness at a concrete accepted id and a concrete rejected
id is taken at the accepted one. -/
theorem mock_id_acceptance_witness :
    (getPredictionById [] false "mock-7" "user" 3).code = 200 :=
  (mock_id_acceptance [] "mock-7" "user" 3).1.mpr (Or.inl (by decide))

/-- C6: with the store available, whenever no record matches both the
requested id and the requesting owner (absent id, already-deleted record,
or a record belonging to another owner), GetByOne and Delete both respond
404 and the store is left unchanged. -/
theorem real_not_found_404 (store : List PredRecord) (predictionId userId : String) (now : Int)
    (habs : ∀ rec ∈ store, ¬(rec._id = predictionId ∧ rec.user = userId)) :
    (getPredictionById store true predictionId userId now).code = 404 ∧
    (getPredictionById store true predictionId userId now).status = "error" ∧
    (getPredictionById store true predictionId userId now).message =
      some "Prediction not found" ∧
    (deletePrediction store true predictionId userId).resp.code = 404 ∧
    (deletePrediction store true predictionId userId).resp.status = "error" ∧
    (deletePrediction store true predictionId userId).store = store := by
  have hfind : store.find? (fun rec => rec._id == predictionId && rec.user == userId) = none := by
    rw [List.find?_eq_none]
    intro x hx
    simpa [Bool.and_eq_true, beq_iff_eq] using habs x hx
  simp [getPredictionById, deletePrediction, hfind]

/-- C6 witness: a record owned by user A is invisible to user B. -/
theorem real_not_found_404_witness :
    (getPredictionById [sampleRecord] true "abc123" "B" 0).code = 404 ∧
    (deletePrediction [sampleRecord] true "abc123" "B").store = [sampleRecord] :=
  ⟨(real_not_found_404 [sampleRecord] "abc123" "B" 0 (by decide)).1,
   (real_not_found_404 [sampleRecord] "abc123" "B" 0 (by decide)).2.2.2.2.2⟩

/-- C10: a page query that is absent, non-numeric or parses to 0 becomes
1, a limit query that is absent, non-numeric or parses to 0 becomes 10;
hence the limit used by the List handler is never 0 and the pages
computation never divides by zero. -/
theorem list_pagination_defaults (pageQ limitQ : Option String) :
    (jsParseInt pageQ = none ∨ jsParseInt pageQ = some 0 →
      jsOr (jsParseInt pageQ) 1 = 1) ∧
    (jsParseInt limitQ = none ∨ jsParseInt limitQ = some 0 →
      jsOr (jsParseInt limitQ) 10 = 10) ∧
    jsOr (jsParseInt limitQ) 10 ≠ 0 ∧
    (∀ store userId now gen connected d,
      (getPredictionHistory store connected userId pageQ limitQ now gen).data = some d →
      d.pagination.limit ≠ 0) := by
  refine ⟨?_, ?_, ?_, ?_⟩
  · rintro (h | h) <;> simp [jsOr, h]
  · rintro (h | h) <;> simp [jsOr, h]
  · cases h : jsParseInt limitQ with
    | none => simp [jsOr]
    | some n =>
        by_cases hn : n = 0 <;> simp [jsOr, hn]
  · intro store userId now gen connected d hd
    cases connected with
    | false =>
        simp only [getPredictionHistory, Bool.not_false, if_true, ite_true,
          Option.some.injEq] at hd
        subst hd
        simp
    | true =>
        simp only [getPredictionHistory, Bool.not_true, if_false, Bool.false_eq_true,
          ite_false, Option.some.injEq] at hd
        subst hd
        cases h : jsParseInt limitQ with
        | none => simp [jsOr]
        | some n => by_cases hn : n = 0 <;> simp [jsOr, h, hn]

/-- C10 witness: a limit query of "0" yields the default 10. -/
theorem list_pagination_defaults_witness :
    jsOr (jsParseInt (some "0")) 10 = 10 :=
  (list_pagination_defaults (some "abc") (some "0")).2.1 (Or.inr (by decide))

/-! ### Message shape of the Joi checks -/

lemma checkRequiredEnum_shape (name : String) (allowed : List String) (v : Option JsVal)
    (m : String) (h : checkRequiredEnum name allowed v = some m) :
    ∃ rest, m = quoted name ++ rest := by
  rcases v with _ | jv
  · simp only [checkRequiredEnum, Option.some.injEq] at h
    exact ⟨" is required", by rw [← h]; rfl⟩
  · cases jv with
    | str s =>
        simp only [checkRequiredEnum] at h
        by_cases hs : s ∈ allowed
        · simp [hs] at h
        · simp only [hs, if_false, ite_false, Option.some.injEq] at h
          exact ⟨" must be one of [" ++ String.intercalate ", " allowed ++ "]",
            by rw [← h]; simp [String.append_assoc]⟩
    | num q =>
        simp only [checkRequiredEnum, Option.some.injEq] at h
        exact ⟨" must be one of [" ++ String.intercalate ", " allowed ++ "]",
          by rw [← h]; simp [String.append_assoc]⟩
    | bool b =>
        simp only [checkRequiredEnum, Option.some.injEq] at h
        exact ⟨" must be one of [" ++ String.intercalate ", " allowed ++ "]",
          by rw [← h]; simp [String.append_assoc]⟩

lemma checkRequiredNumber_shape (name : String) (v : Option JsVal)
    (m : String) (h : checkRequiredNumber name v = some m) :
    ∃ rest, m = quoted name ++ rest := by
  rcases v with _ | jv
  · simp only [checkRequiredNumber, Option.some.injEq] at h
    exact ⟨" is required", by rw [← h]; rfl⟩
  · cases jv <;> simp only [checkRequiredNumber, Option.some.injEq] at h <;>
      first
      | exact ⟨_, h.symm⟩
      | exact absurd h (by simp)

lemma checkRequiredBool_shape (name : String) (v : Option JsVal)
    (m : String) (h : checkRequiredBool name v = some m) :
    ∃ rest, m = quoted name ++ rest := by
  rcases v with _ | jv
  · simp only [checkRequiredBool, Option.some.injEq] at h
    exact ⟨" is required", by rw [← h]; rfl⟩
  · cases jv <;> simp only [checkRequiredBool, Option.some.injEq] at h <;>
      first
      | exact ⟨_, h.symm⟩
      | exact absurd h (by simp)

lemma checkOptionalNumber_shape (name : String) (v : Option JsVal)
    (m : String) (h : checkOptionalNumber name v = some m) :
    ∃ rest, m = quoted name ++ rest := by
  rcases v with _ | jv
  · simp [checkOptionalNumber] at h
  · cases jv <;> simp only [checkOptionalNumber, Option.some.injEq] at h <;>
      first
      | exact ⟨_, h.symm⟩
      | exact absurd h (by simp)

lemma checkOptionalBool_shape (name : String) (v : Option JsVal)
    (m : String) (h : checkOptionalBool name v = some m) :
    ∃ rest, m = quoted name ++ rest := by
  rcases v with _ | jv
  · simp [checkOptionalBool] at h
  · cases jv <;> simp only [checkOptionalBool, Option.some.injEq] at h <;>
      first
      | exact ⟨_, h.symm⟩
      | exact absurd h (by simp)

lemma checkRequiredEnum_ne_none (name : String) (allowed : List String) (v : Option JsVal)
    (h : checkRequiredEnum name allowed v = none) : v ≠ none := by
  intro hv
  subst hv
  simp [checkRequiredEnum] at h

lemma checkRequiredNumber_ne_none (name : String) (v : Option JsVal)
    (h : checkRequiredNumber name v = none) : v ≠ none := by
  intro hv
  subst hv
  simp [checkRequiredNumber] at h

lemma checkRequiredBool_ne_none (name : String) (v : Option JsVal)
    (h : checkRequiredBool name v = none) : v ≠ none := by
  intro hv
  subst hv
  simp [checkRequiredBool] at h

/-- Every message the schema produces starts with the quoted name of the
field whose rule was violated. -/
lemma firstJoiError_shape (p : Payload) (fld msg : String)
    (h : firstJoiError p = some (fld, msg)) : ∃ rest, msg = quoted fld ++ rest := by
  simp only [firstJoiError] at h
  cases h1 : checkRequiredEnum "gender" ["Male", "Female"] p.gender with
  | some m =>
      simp only [h1, Option.some.injEq, Prod.mk.injEq] at h
      obtain ⟨rfl, rfl⟩ := h
      exact checkRequiredEnum_shape _ _ _ _ h1
  | none =>
  simp only [h1] at h
  cases h2 : checkRequiredNumber "age" p.age with
  | some m =>
      simp only [h2, Option.some.injEq, Prod.mk.injEq] at h
      obtain ⟨rfl, rfl⟩ := h
      exact checkRequiredNumber_shape _ _ _ h2
  | none =>
  simp only [h2] at h
  cases h3 : checkOptionalBool "hypertension" p.hypertension with
  | some m =>
      simp only [h3, Option.some.injEq, Prod.mk.injEq] at h
      obtain ⟨rfl, rfl⟩ := h
      exact checkOptionalBool_shape _ _ _ h3
  | none =>
  simp only [h3] at h
  cases h4 : checkRequiredBool "heartDisease" p.heartDisease with
  | some m =>
      simp only [h4, Option.some.injEq, Prod.mk.injEq] at h
      obtain ⟨rfl, rfl⟩ := h
      exact checkRequiredBool_shape _ _ _ h4
  | none =>
  simp only [h4] at h
  cases h5 : checkRequiredEnum "smokingHistory" ["never", "former", "current"] p.smokingHistory with
  | some m =>
      simp only [h5, Option.some.injEq, Prod.mk.injEq] at h
      obtain ⟨rfl, rfl⟩ := h
      exact checkRequiredEnum_shape _ _ _ _ h5
  | none =>
  simp only [h5] at h
  cases h6 : checkRequiredNumber "bmi" p.bmi with
  | some m =>
      simp only [h6, Option.some.injEq, Prod.mk.injEq] at h
      obtain ⟨rfl, rfl⟩ := h
      exact checkRequiredNumber_shape _ _ _ h6
  | none =>
  simp only [h6] at h
  cases h7 : checkOptionalNumber "hbA1cLevel" p.hbA1cLevel with
  | some m =>
      simp only [h7, Option.some.injEq, Prod.mk.injEq] at h
      obtain ⟨rfl, rfl⟩ := h
      exact checkOptionalNumber_shape _ _ _ h7
  | none =>
  simp only [h7] at h
  cases h8 : checkOptionalNumber "bloodGlucoseLevel" p.bloodGlucoseLevel with
  | some m =>
      simp only [h8, Option.some.injEq, Prod.mk.injEq] at h
      obtain ⟨rfl, rfl⟩ := h
      exact checkOptionalNumber_shape _ _ _ h8
  | none =>
  simp [h8] at h

/-- When the schema reports no violation every required field is present. -/
lemma firstJoiError_required_present (p : Payload) (h : firstJoiError p = none) :
    p.gender ≠ none ∧ p.age ≠ none ∧ p.heartDisease ≠ none ∧
    p.smokingHistory ≠ none ∧ p.bmi ≠ none := by
  simp only [firstJoiError] at h
  cases h1 : checkRequiredEnum "gender" ["Male", "Female"] p.gender with
  | some m => simp [h1] at h
  | none =>
  simp only [h1] at h
  cases h2 : checkRequiredNumber "age" p.age with
  | some m => simp [h2] at h
  | none =>
  simp only [h2] at h
  cases h3 : checkOptionalBool "hypertension" p.hypertension with
  | some m => simp [h3] at h
  | none =>
  simp only [h3] at h
  cases h4 : checkRequiredBool "heartDisease" p.heartDisease with
  | some m => simp [h4] at h
  | none =>
  simp only [h4] at h
  cases h5 : checkRequiredEnum "smokingHistory" ["never", "former", "current"] p.smokingHistory with
  | some m => simp [h5] at h
  | none =>
  simp only [h5] at h
  cases h6 : checkRequiredNumber "bmi" p.bmi with
  | some m => simp [h6] at h
  | none =>
  exact ⟨checkRequiredEnum_ne_none _ _ _ h1, checkRequiredNumber_ne_none _ _ h2,
         checkRequiredBool_ne_none _ _ h4, checkRequiredEnum_ne_none _ _ _ h5,
         checkRequiredNumber_ne_none _ _ h6⟩

/-- C7: for every input missing a required field, the Create handler
responds 400 with status "error"; the message quotes the field of the
first violated rule (the missing field itself when its rule is the first
violated one, Joi aborting early), and when that first-violated field is
one of the optional fields the message is augmented with the
omit-and-estimate guidance. -/
theorem missing_required_field_400 (p : Payload)
    (hmiss : p.gender = none ∨ p.age = none ∨ p.heartDisease = none ∨
             p.smokingHistory = none ∨ p.bmi = none)
    (ml : Option (PredictionResult × Recommendations)) (coin : Bool) (r : ℚ)
    (connected : Bool) (store : List PredRecord) (freshId userId : String) (now : Int) :
    (createPrediction p ml coin r connected store freshId userId now).resp.code = 400 ∧
    (createPrediction p ml coin r connected store freshId userId now).resp.status = "error" ∧
    ∃ fld msg, firstJoiError p = some (fld, msg) ∧
      (createPrediction p ml coin r connected store freshId userId now).resp.message =
        some (augmentMessage msg) ∧
      jsIncludes (augmentMessage msg) (quoted fld) = true ∧
      ((fld = "hypertension" ∨ fld = "hbA1cLevel" ∨ fld = "bloodGlucoseLevel") →
        jsIncludes (augmentMessage msg) optionalHint = true) := by
  have hsome : ∃ fld msg, firstJoiError p = some (fld, msg) := by
    cases hfe : firstJoiError p with
    | some q => exact ⟨q.1, q.2, rfl⟩
    | none =>
        have hp := firstJoiError_required_present p hfe
        rcases hmiss with h | h | h | h | h
        · exact absurd h hp.1
        · exact absurd h hp.2.1
        · exact absurd h hp.2.2.1
        · exact absurd h hp.2.2.2.1
        · exact absurd h hp.2.2.2.2
  obtain ⟨fld, msg, hfe⟩ := hsome
  have herr : (predictionValidation p).error = some msg := by
    simp [predictionValidation, hfe]
  obtain ⟨rest, hmsg⟩ := firstJoiError_shape p fld msg hfe
  have hinc : jsIncludes msg (quoted fld) = true := by
    rw [hmsg]
    exact jsIncludes_quoted_self _ _
  have hincName : jsIncludes msg fld = true := by
    rw [hmsg]
    exact jsIncludes_quoted_name _ _
  have hauginc : jsIncludes (augmentMessage msg) (quoted fld) = true := by
    unfold augmentMessage
    split
    · exact jsIncludes_extend _ _ _ hinc
    · exact hinc
  have haugopt : (fld = "hypertension" ∨ fld = "hbA1cLevel" ∨ fld = "bloodGlucoseLevel") →
      jsIncludes (augmentMessage msg) optionalHint = true := by
    intro hopt
    have hcond : (jsIncludes msg "hbA1cLevel" || jsIncludes msg "bloodGlucoseLevel" ||
        jsIncludes msg "hypertension") = true := by
      rcases hopt with rfl | rfl | rfl <;> simp [hincName]
    simp only [augmentMessage, hcond, if_true, ite_true]
    exact jsIncludes_append_right _ _
  refine ⟨?_, ?_, fld, msg, hfe, ?_, hauginc, haugopt⟩ <;>
    simp [createPrediction, herr]

/-- C7 witness: a payload missing the required gender field. -/
theorem missing_required_field_400_witness :
    (createPrediction { samplePayload with gender := none } none true 0 true [] "fresh"
      "user" 0).resp.code = 400 :=
  (missing_required_field_400 { samplePayload with gender := none } (Or.inl rfl)
    none true 0 true [] "fresh" "user" 0).1

/-! ### Sortedness of the real List branch -/

lemma sortedOwnerRecords_pairwise (store : List PredRecord) (userId : String) :
    (sortedOwnerRecords store userId).Pairwise (fun a b => byCreatedAtDesc a b = true) :=
  List.sorted_mergeSort
    (fun a b c hab hbc => by
      simp only [byCreatedAtDesc, decide_eq_true_eq] at hab hbc ⊢
      exact le_trans hbc hab)
    (fun a b => by
      simp only [byCreatedAtDesc, Bool.or_eq_true, decide_eq_true_eq]
      exact le_total b.createdAt a.createdAt)
    (ownerRecords store userId)

lemma mem_sortedOwnerRecords (store : List PredRecord) (userId : String) (rec : PredRecord)
    (h : rec ∈ sortedOwnerRecords store userId) : rec.user = userId := by
  have h1 : rec ∈ ownerRecords store userId := List.mem_mergeSort.mp h
  have h2 := (List.mem_filter.mp h1).2
  simpa [beq_iff_eq] using h2

/-- C8: with the store available, the List handler responds 200; the
returned page consists of the requesting owner's records sorted by
createdAt descending with (page-1)*limit records skipped and at most
limit records returned, and the pagination metadata reports the owner's
total record count, the requested page and limit, and
pages = ceil(total/limit) (characterized by
(pages-1)*limit < total ≤ pages*limit). -/
theorem history_real_branch (store : List PredRecord) (userId : String)
    (pageQ limitQ : Option String) (now : Int) (gen : Nat → MockRand)
    (hp : 1 ≤ jsOr (jsParseInt pageQ) 1) (hl : 1 ≤ jsOr (jsParseInt limitQ) 10) :
    (getPredictionHistory store true userId pageQ limitQ now gen).code = 200 ∧
    (getPredictionHistory store true userId pageQ limitQ now gen).status = "success" ∧
    ∃ d, (getPredictionHistory store true userId pageQ limitQ now gen).data = some d ∧
      d.predictions = ((sortedOwnerRecords store userId).drop
          (((jsOr (jsParseInt pageQ) 1 - 1) * jsOr (jsParseInt limitQ) 10).toNat)).take
          (jsOr (jsParseInt limitQ) 10).toNat ∧
      (∀ rec ∈ d.predictions, rec.user = userId) ∧
      d.predictions.Pairwise (fun a b => b.createdAt ≤ a.createdAt) ∧
      (d.predictions.length : Int) ≤ jsOr (jsParseInt limitQ) 10 ∧
      d.pagination.page = jsOr (jsParseInt pageQ) 1 ∧
      d.pagination.limit = jsOr (jsParseInt limitQ) 10 ∧
      d.pagination.total = (ownerRecords store userId).length ∧
      d.pagination.pages = mathCeilDiv ((ownerRecords store userId).length : Int)
        (jsOr (jsParseInt limitQ) 10) ∧
      ((d.pagination.pages - 1) * d.pagination.limit < (d.pagination.total : Int) ∧
        (d.pagination.total : Int) ≤ d.pagination.pages * d.pagination.limit) := by
  refine ⟨rfl, rfl, _, rfl, rfl, ?_, ?_, ?_, rfl, rfl, rfl, rfl, ?_⟩
  · intro rec hrec
    exact mem_sortedOwnerRecords store userId rec
      (List.mem_of_mem_drop (List.mem_of_mem_take hrec))
  · have hsub : (((sortedOwnerRecords store userId).drop
        (((jsOr (jsParseInt pageQ) 1 - 1) * jsOr (jsParseInt limitQ) 10).toNat)).take
        (jsOr (jsParseInt limitQ) 10).toNat).Sublist (sortedOwnerRecords store userId) :=
      (List.take_sublist _ _).trans (List.drop_sublist _ _)
    exact ((sortedOwnerRecords_pairwise store userId).sublist hsub).imp
      (fun hab => by simpa [byCreatedAtDesc, decide_eq_true_eq] using hab)
  · have h1 := List.length_take_le ((jsOr (jsParseInt limitQ) 10).toNat)
      ((sortedOwnerRecords store userId).drop
        (((jsOr (jsParseInt pageQ) 1 - 1) * jsOr (jsParseInt limitQ) 10).toNat))
    show ((((sortedOwnerRecords store userId).drop
        (((jsOr (jsParseInt pageQ) 1 - 1) * jsOr (jsParseInt limitQ) 10).toNat)).take
        ((jsOr (jsParseInt limitQ) 10).toNat)).length : Int) ≤ jsOr (jsParseInt limitQ) 10
    omega
  · show (mathCeilDiv _ _ - 1) * jsOr (jsParseInt limitQ) 10 < _ ∧ _
    have hL : (0 : ℚ) < ((jsOr (jsParseInt limitQ) 10 : Int) : ℚ) := by
      have : (0 : Int) < jsOr (jsParseInt limitQ) 10 := lt_of_lt_of_le zero_lt_one hl
      exact_mod_cast this
    constructor
    · have hceil : ((mathCeilDiv ((ownerRecords store userId).length : Int)
          (jsOr (jsParseInt limitQ) 10) : Int) : ℚ) <
          (((ownerRecords store userId).length : Int) : ℚ) /
            ((jsOr (jsParseInt limitQ) 10 : Int) : ℚ) + 1 :=
        Int.ceil_lt_add_one _
      have h2 : ((mathCeilDiv ((ownerRecords store userId).length : Int)
          (jsOr (jsParseInt limitQ) 10) : Int) : ℚ) - 1 <
          (((ownerRecords store userId).length : Int) : ℚ) /
            ((jsOr (jsParseInt limitQ) 10 : Int) : ℚ) := by linarith
      have h3 := (lt_div_iff hL).mp h2
      exact_mod_cast h3
    · have hle : (((ownerRecords store userId).length : Int) : ℚ) /
          ((jsOr (jsParseInt limitQ) 10 : Int) : ℚ) ≤
          ((mathCeilDiv ((ownerRecords store userId).length : Int)
            (jsOr (jsParseInt limitQ) 10) : Int) : ℚ) :=
        Int.le_ceil _
      have h3 := (div_le_iff hL).mp hle
      exact_mod_cast h3

/-- C8 witness with empty store and default pagination. -/
theorem history_real_branch_witness :
    (getPredictionHistory [] true "user" none none 0 (fun _ => zeroRand)).code = 200 :=
  (history_real_branch [] "user" none none 0 (fun _ => zeroRand)
    (by decide) (by decide)).1

end SweetAware
